import Mathlib

/-!
Shallow embedding of the JSON analysis tool (json_utils.py, data_analyzer.py,
visualizer.py): the JSON value model, the structural summarizer
`get_json_structure`, the flattener `json_to_dataframe` (pandas
`json_normalize` plus DataFrame construction and dtype inference), the column
classifiers of `JSONDataAnalyzer`, the correlation matrix, and the histogram
builder.
-/

/-- A parsed JSON value, as produced by Python json.load: `null`, booleans,
numbers (Python distinguishes int and float), strings, arrays, and objects
(dicts with insertion-ordered, distinct keys, modelled as association lists). -/
inductive JsonValue where
  | null
  | bool (b : Bool)
  | int (n : Int)
  | float (q : Rat)
  | str (s : String)
  | arr (elems : List JsonValue)
  | obj (entries : List (String × JsonValue))
deriving Repr

/-- Python type(value).__name__ for each JSON value shape. -/
def typeName : JsonValue → String
  | .null => "NoneType"
  | .bool _ => "bool"
  | .int _ => "int"
  | .float _ => "float"
  | .str _ => "str"
  | .arr _ => "list"
  | .obj _ => "dict"

/-- isinstance(value, dict). -/
def JsonValue.isObjB : JsonValue → Bool
  | .obj _ => true
  | _ => false

/-- Neither a dict nor a list: a bare scalar (null included). -/
def JsonValue.isScalarB : JsonValue → Bool
  | .obj _ => false
  | .arr _ => false
  | _ => true

mutual

/-- Decidable structural equality on JsonValue. -/
def jvDecEq : (a b : JsonValue) → Decidable (a = b)
  | .null, .null => isTrue rfl
  | .bool a, .bool b =>
      if h : a = b then isTrue (by rw [h])
      else isFalse (fun hh => h (JsonValue.bool.inj hh))
  | .int a, .int b =>
      if h : a = b then isTrue (by rw [h])
      else isFalse (fun hh => h (JsonValue.int.inj hh))
  | .float a, .float b =>
      if h : a = b then isTrue (by rw [h])
      else isFalse (fun hh => h (JsonValue.float.inj hh))
  | .str a, .str b =>
      if h : a = b then isTrue (by rw [h])
      else isFalse (fun hh => h (JsonValue.str.inj hh))
  | .arr a, .arr b =>
      match jvListDecEq a b with
      | isTrue h => isTrue (by rw [h])
      | isFalse h => isFalse (fun hh => h (JsonValue.arr.inj hh))
  | .obj a, .obj b =>
      match jvEntriesDecEq a b with
      | isTrue h => isTrue (by rw [h])
      | isFalse h => isFalse (fun hh => h (JsonValue.obj.inj hh))
  | .null, .bool _ | .null, .int _ | .null, .float _ | .null, .str _
  | .null, .arr _ | .null, .obj _
  | .bool _, .null | .bool _, .int _ | .bool _, .float _ | .bool _, .str _
  | .bool _, .arr _ | .bool _, .obj _
  | .int _, .null | .int _, .bool _ | .int _, .float _ | .int _, .str _
  | .int _, .arr _ | .int _, .obj _
  | .float _, .null | .float _, .bool _ | .float _, .int _ | .float _, .str _
  | .float _, .arr _ | .float _, .obj _
  | .str _, .null | .str _, .bool _ | .str _, .int _ | .str _, .float _
  | .str _, .arr _ | .str _, .obj _
  | .arr _, .null | .arr _, .bool _ | .arr _, .int _ | .arr _, .float _
  | .arr _, .str _ | .arr _, .obj _
  | .obj _, .null | .obj _, .bool _ | .obj _, .int _ | .obj _, .float _
  | .obj _, .str _ | .obj _, .arr _ => isFalse (fun hh => nomatch hh)

def jvListDecEq : (a b : List JsonValue) → Decidable (a = b)
  | [], [] => isTrue rfl
  | [], _ :: _ => isFalse (fun hh => nomatch hh)
  | _ :: _, [] => isFalse (fun hh => nomatch hh)
  | a :: as, b :: bs =>
      match jvDecEq a b, jvListDecEq as bs with
      | isTrue h1, isTrue h2 => isTrue (by rw [h1, h2])
      | isFalse h1, _ => isFalse (fun hh => by
          injection hh with hhd htl
          exact h1 hhd)
      | _, isFalse h2 => isFalse (fun hh => by
          injection hh with hhd htl
          exact h2 htl)

def jvEntriesDecEq : (a b : List (String × JsonValue)) → Decidable (a = b)
  | [], [] => isTrue rfl
  | [], _ :: _ => isFalse (fun hh => nomatch hh)
  | _ :: _, [] => isFalse (fun hh => nomatch hh)
  | (k, v) :: as, (k2, v2) :: bs =>
      if hk : k = k2 then
        match jvDecEq v v2, jvEntriesDecEq as bs with
        | isTrue h1, isTrue h2 => isTrue (by rw [hk, h1, h2])
        | isFalse h1, _ => isFalse (fun hh => by
            injection hh with hhd htl
            injection hhd with hk1 hv1
            exact h1 hv1)
        | _, isFalse h2 => isFalse (fun hh => by
            injection hh with hhd htl
            exact h2 htl)
      else isFalse (fun hh => by
        injection hh with hhd htl
        injection hhd with hk1 hv1
        exact hk hk1)

end

instance : DecidableEq JsonValue := jvDecEq

/-- The structure dictionary built by get_json_structure: a type tag plus the
optional size, properties and items entries. -/
inductive SNode where
  | node (ty : String) (size : Option Nat)
      (properties : Option (List (String × SNode))) (items : Option SNode)
deriving Repr

def SNode.ty : SNode → String
  | .node t _ _ _ => t

def SNode.size : SNode → Option Nat
  | .node _ s _ _ => s

def SNode.properties : SNode → Option (List (String × SNode))
  | .node _ _ p _ => p

def SNode.items : SNode → Option SNode
  | .node _ _ _ i => i

mutual

/-- json_utils.get_json_structure: the top-level branch on dict / list /
scalar. For a dict, type is "object", size is len(data) and properties maps
each key to its property node. For a list, type is "array", size is len(data)
and items describes element 0 when the list is non-empty: the full structure
when element 0 is a dict, otherwise just its type name. A scalar gives a leaf
holding its type name. -/
def get_json_structure : JsonValue → SNode
  | .obj kvs => .node "object" (some kvs.length) (some (propList kvs)) none
  | .arr xs => .node "array" (some xs.length) none (topItems xs)
  | v => .node (typeName v) none none none

/-- The items entry of the top-level list branch of get_json_structure. The
dict case is the unfolded recursive call get_json_structure on element 0
(see topItems_head_obj below). -/
def topItems : List JsonValue → Option SNode
  | [] => none
  | .obj kvs :: _ =>
      some (.node "object" (some kvs.length) (some (propList kvs)) none)
  | hd :: _ => some (.node (typeName hd) none none none)

/-- The properties mapping of the dict branch of get_json_structure,
in key insertion order. -/
def propList : List (String × JsonValue) → List (String × SNode)
  | [] => []
  | (k, v) :: rest => (k, propNode v) :: propList rest

/-- The per-property branch inside the dict case of get_json_structure:
a dict value recurses (the dict case is the unfolded recursive call, see
propNode_obj below); a list value records type "array" and its length, and
an items entry only when the list is non-empty AND its first element is a
dict; any other value gives a leaf with its type name. -/
def propNode : JsonValue → SNode
  | .obj kvs => .node "object" (some kvs.length) (some (propList kvs)) none
  | .arr xs => .node "array" (some xs.length) none (propItems xs)
  | v => .node (typeName v) none none none

/-- The items entry for a list-valued property: present only when the list is
non-empty and its first element is a dict, in which case it is the unfolded
recursive call get_json_structure on element 0 (see propItems_head_obj). -/
def propItems : List JsonValue → Option SNode
  | .obj kvs :: _ =>
      some (.node "object" (some kvs.length) (some (propList kvs)) none)
  | _ => none

end

/-- The type label the top-level branch of get_json_structure assigns:
"object" for dicts, "array" for lists, and the Python type name for any
scalar. Used to state totality of the summarizer over every JsonValue. -/
def topTypeName : JsonValue → String
  | .obj _ => "object"
  | .arr _ => "array"
  | v => typeName v

/-!
The flattener: pandas json_normalize as invoked by json_utils.json_to_dataframe,
plus DataFrame construction from the flattened records.
-/

/-- A cell of the flattened DataFrame. pandas distinguishes the numpy NaN a
missing key produces (pnan) from a Python None stored as an object (pnone);
numbers, booleans and strings are stored as themselves and an array-valued
leaf keeps the whole Python list as one cell value. -/
inductive PCell where
  | pnan
  | pnone
  | pnum (isInt : Bool) (q : Rat)
  | pbool (b : Bool)
  | pstr (s : String)
  | plist (xs : List JsonValue)
  | pdict (kvs : List (String × JsonValue))
deriving Repr, DecidableEq

/-- How a JSON leaf value is stored in a DataFrame cell. -/
def toCell : JsonValue → PCell
  | .null => .pnone
  | .bool b => .pbool b
  | .int n => .pnum true n
  | .float q => .pnum false q
  | .str s => .pstr s
  | .arr xs => .plist xs
  | .obj kvs => .pdict kvs

/-- Dot-joined key paths: the sep="." rule of pandas nested_to_record; at the
top level (empty path so far) the key is kept as-is. -/
def joinPath (pfx k : String) : String :=
  if pfx = "" then k else pfx ++ "." ++ k

mutual

/-- pandas nested_to_record at recursion level >= 1: every key, scalar or
dict-valued, is popped from the working dict and re-appended under its
dotted path in processing order, so the flattened subtree is the in-order
concatenation of each entry's leaves. -/
def ntrFlat (pfx : String) : List (String × JsonValue) →
    List (String × JsonValue)
  | [] => []
  | (k, v) :: rest => ntrFlatVal pfx k v ++ ntrFlat pfx rest

/-- One entry at level >= 1 of nested_to_record: a non-dict value becomes a
single leaf under its dotted path; a dict value recurses with the extended
path (an empty dict contributes nothing). -/
def ntrFlatVal (pfx k : String) : JsonValue → List (String × JsonValue)
  | .obj kvs2 => ntrFlat (joinPath pfx k) kvs2
  | v => [(joinPath pfx k, v)]

end

/-- Level 0 of pandas nested_to_record, split into (entries kept in place,
entries appended at the end): at the top level non-dict keys are not renamed
and stay in position, while each dict-valued key is popped and its flattened
subtree is appended at the end by dict.update, in key order (an empty dict
value contributes nothing). -/
def ntrList : List (String × JsonValue) →
    List (String × JsonValue) × List (String × JsonValue)
  | [] => ([], [])
  | (k, .obj kvs2) :: rest =>
      let r := ntrList rest
      (r.1, ntrFlat k kvs2 ++ r.2)
  | (k, v) :: rest =>
      let r := ntrList rest
      ((k, v) :: r.1, r.2)

/-- pandas nested_to_record on one record, as called by json_normalize: one
flat (path, leaf value) entry per leaf; the top-level keys surviving in
place come first, then the flattened subtrees of dict-valued keys. -/
def nestedToRecord (d : List (String × JsonValue)) :
    List (String × JsonValue) :=
  (ntrList d).1 ++ (ntrList d).2

/-- The flattened table: named columns (in first-seen order) of equal-length
cell lists, and the row count. -/
structure DataFrame where
  cols : List (String × List PCell)
  nrows : Nat
deriving Repr, DecidableEq

/-- df.columns. -/
def DataFrame.colNames (df : DataFrame) : List String :=
  df.cols.map Prod.fst

/-- df[c]: the cells of column c (the first column of that name). -/
def DataFrame.col (df : DataFrame) (c : String) : List PCell :=
  (df.cols.lookup c).getD []

/-- Append the keys of one record to the accumulated column list, keeping
first-seen order and skipping keys already present. -/
def addKeys (acc : List String) (ks : List String) : List String :=
  ks.foldl (fun a k => if k ∈ a then a else a ++ [k]) acc

/-- The DataFrame column list for a list of records: the union of all record
keys in first-seen order. -/
def unionKeys (recs : List (List (String × JsonValue))) : List String :=
  recs.foldl (fun acc r => addKeys acc (r.map Prod.fst)) []

/-- The cell a record contributes to column c: its value there, or the numpy
NaN pandas fills in for a missing key. -/
def cellAt (r : List (String × JsonValue)) (c : String) : PCell :=
  match r.lookup c with
  | some v => toCell v
  | none => .pnan

/-- pd.DataFrame built from a list of flat records. -/
def recordsToDF (recs : List (List (String × JsonValue))) : DataFrame :=
  let ks := unionKeys recs
  { cols := ks.map (fun c => (c, recs.map (fun r => cellAt r c))),
    nrows := recs.length }

/-- The flattened records json_normalize builds for a top-level list whose
elements are all dicts. -/
def recsOf (xs : List JsonValue) : List (List (String × JsonValue)) :=
  xs.map (fun v =>
    match v with
    | .obj kvs => nestedToRecord kvs
    | _ => [])

/-- pandas json_normalize as reached from json_to_dataframe: an empty list
gives an empty DataFrame; a dict is wrapped as a one-record list and
flattened; a non-empty list succeeds only when every element is a dict
(a non-dict element raises inside json_normalize); any other top-level value
raises NotImplementedError. -/
def json_normalize : JsonValue → Except Unit DataFrame
  | .arr [] => .ok { cols := [], nrows := 0 }
  | .obj kvs => .ok (recordsToDF [nestedToRecord kvs])
  | .arr xs =>
      if xs.all JsonValue.isObjB then .ok (recordsToDF (recsOf xs))
      else .error ()
  | _ => .error ()

/-- The flattening error kind of the repository, named as in the spec: the
ValueError json_to_dataframe raises when json_normalize fails. -/
inductive FlatError where
  | unconvertibleStructure
deriving Repr, DecidableEq

/-- json_utils.json_to_dataframe: pd.json_normalize wrapped so that any
exception is re-raised as the ValueError the spec calls
UnconvertibleStructure. -/
def json_to_dataframe (v : JsonValue) : Except FlatError DataFrame :=
  match json_normalize v with
  | .ok df => .ok df
  | .error _ => .error .unconvertibleStructure

instance {e a : Type} [DecidableEq e] [DecidableEq a] : DecidableEq (Except e a) :=
  fun x y =>
    match x, y with
    | .ok u, .ok v =>
        if h : u = v then isTrue (by rw [h])
        else isFalse (by intro hh; cases hh; exact h rfl)
    | .error u, .error v =>
        if h : u = v then isTrue (by rw [h])
        else isFalse (by intro hh; cases hh; exact h rfl)
    | .ok _, .error _ => isFalse (by intro hh; cases hh)
    | .error _, .ok _ => isFalse (by intro hh; cases hh)

/-- The DataFrame a successful flattening produces (the empty DataFrame when
flattening fails); a convenience accessor for stating concrete scenarios. -/
def dfOf (v : JsonValue) : DataFrame :=
  ((json_to_dataframe v).toOption).getD { cols := [], nrows := 0 }

/-!
The analyzer (data_analyzer.JSONDataAnalyzer): pandas dtype inference over a
column, column classification, and the correlation matrix.
-/

/-- The storage dtypes a flattened column can take here: a numpy numeric
dtype (int64/float64), numpy bool, or object. -/
inductive DType where
  | numeric
  | boolean
  | objectD
deriving Repr, DecidableEq

/-- A cell a numeric numpy array can hold: a number, the NaN of a missing
key, or a Python None (converted to NaN during inference when the rest of
the column is numeric). -/
def PCell.isNumLike : PCell → Bool
  | .pnum _ _ => true
  | .pnan => true
  | .pnone => true
  | _ => false

/-- A cell that already carries numeric (float) content: a number or NaN. -/
def PCell.isNumOrNan : PCell → Bool
  | .pnum _ _ => true
  | .pnan => true
  | _ => false

def PCell.isBool : PCell → Bool
  | .pbool _ => true
  | _ => false

/-- A cell pd.isna treats as missing: NaN or None. -/
def PCell.isNa : PCell → Bool
  | .pnan => true
  | .pnone => true
  | _ => false

/-- Whether a cell value is hashable in Python: lists and dicts raise
TypeError in hash(), everything else is hashable. -/
def PCell.isHashable : PCell → Bool
  | .plist _ => false
  | .pdict _ => false
  | _ => true

/-- numpy's INT64_MAX, as named in pandas lib.pyx. -/
def oINT64_MAX : Int := 2 ^ 63 - 1

/-- numpy's INT64_MIN, as named in pandas lib.pyx. -/
def oINT64_MIN : Int := -(2 ^ 63)

/-- numpy's UINT64_MAX, as named in pandas lib.pyx. -/
def oUINT64_MAX : Int := 2 ^ 64 - 1

/-- The Python int a cell holds, if it is an integer cell. -/
def PCell.intValue : PCell → Option Int
  | .pnum true q => some q.num
  | _ => none

/-- maybe_convert_objects keeps a column at object dtype when some integer
cell falls outside [INT64_MIN, UINT64_MAX], the range 64-bit numpy integer
dtypes can represent. -/
def intWithinBounds (cells : List PCell) : Bool :=
  cells.all (fun x =>
    match x.intValue with
    | some n => decide (oINT64_MIN ≤ n ∧ n ≤ oUINT64_MAX)
    | none => true)

/-- maybe_convert_objects keeps a column at object dtype when it mixes a
negative integer with one above INT64_MAX: no single 64-bit integer dtype
(int64 or uint64) holds both. -/
def mixedIntSigns (cells : List PCell) : Bool :=
  (cells.any fun x =>
    match x.intValue with
    | some n => decide (n < 0)
    | none => false) &&
  (cells.any fun x =>
    match x.intValue with
    | some n => decide (oINT64_MAX < n)
    | none => false)

/-- The integer-range side condition of maybe_convert_objects: every integer
cell fits the 64-bit bounds and signs are not mixed across the int64/uint64
boundary. -/
def int64RangeOk (cells : List PCell) : Bool :=
  intWithinBounds cells && !mixedIntSigns cells

/-- pandas dtype inference for a column built from a list of records: the
column is numeric (int64/uint64/float64) when every cell is a number, NaN or
None, at least one cell is a number or NaN (a column of only None values
stays object), and the integer cells pass the 64-bit range bookkeeping of
maybe_convert_objects (an out-of-range Python int keeps the column at
object); it is bool when every cell is a Python bool; otherwise it is
object. -/
def inferDtype (cells : List PCell) : DType :=
  if cells.all PCell.isNumLike && cells.any PCell.isNumOrNan &&
      int64RangeOk cells then .numeric
  else if (!cells.isEmpty) && cells.all PCell.isBool then .boolean
  else .objectD

/-- JSONDataAnalyzer._get_numeric_columns, stored as self.numeric_columns at
construction: df.select_dtypes(include=[np.number]).columns. -/
def numeric_columns (df : DataFrame) : List String :=
  df.colNames.filter (fun c => inferDtype (df.col c) == DType.numeric)

/-- The bounded sample of JSONDataAnalyzer._get_categorical_columns:
df[col].dropna().head(5), the first 5 non-null cells. -/
def sampleValues (cells : List PCell) : List PCell :=
  (cells.filter (fun x => !x.isNa)).take 5

/-- JSONDataAnalyzer._get_categorical_columns, stored as
self.categorical_columns at construction: iterate over the object-dtype
columns (df.select_dtypes(include=['object'])) and keep a column when
hashing each of its first 5 non-null cells succeeds; a TypeError or
ValueError (unhashable list/dict cell) skips the column. -/
def categorical_columns (df : DataFrame) : List String :=
  (df.colNames.filter (fun c => inferDtype (df.col c) == DType.objectD)).filter
    (fun c => (sampleValues (df.col c)).all PCell.isHashable)

/-- Rational to float, the way numpy stores the parsed numbers. -/
def ratToFloat (q : Rat) : Float :=
  Float.ofInt q.num / Float.ofNat q.den

/-- The float a numeric cell holds, none for the NaN/None missing markers. -/
def cellToFloat : PCell → Option Float
  | .pnum _ q => some (ratToFloat q)
  | _ => none

/-- The pairwise-complete observations pandas corr uses for one pair of
columns: rows where both cells are non-missing numbers. -/
def pairedObs (xs ys : List PCell) : List (Float × Float) :=
  (xs.zip ys).filterMap (fun p =>
    match cellToFloat p.1, cellToFloat p.2 with
    | some a, some b => some (a, b)
    | _, _ => none)

/-- Pearson correlation of two columns over their pairwise-complete
observations, as a float; NaN (0.0/0.0) when there are no observations or a
zero variance makes the ratio undefined. -/
def pearson (xs ys : List PCell) : Float :=
  let ps := pairedObs xs ys
  let n : Float := Float.ofNat ps.length
  if ps.length == 0 then 0.0 / 0.0
  else
    let mx := (ps.foldl (fun s p => s + p.1) 0.0) / n
    let my := (ps.foldl (fun s p => s + p.2) 0.0) / n
    let cov := ps.foldl (fun s p => s + (p.1 - mx) * (p.2 - my)) 0.0
    let vx := ps.foldl (fun s p => s + (p.1 - mx) * (p.1 - mx)) 0.0
    let vy := ps.foldl (fun s p => s + (p.2 - my) * (p.2 - my)) 0.0
    cov / Float.sqrt (vx * vy)

/-- The DataFrame df.corr() returns: index and columns are the source
DataFrame's columns and the cell grid holds the pairwise Pearson values. -/
structure CorrMatrix where
  index : List String
  columns : List String
  data : List (List Float)

/-- df[cols]: column selection. -/
def selectCols (df : DataFrame) (cs : List String) : DataFrame :=
  { cols := cs.map (fun c => (c, df.col c)), nrows := df.nrows }

/-- DataFrame.corr on an all-numeric DataFrame. -/
def DataFrame.corr (df : DataFrame) : CorrMatrix :=
  { index := df.colNames,
    columns := df.colNames,
    data := df.colNames.map (fun i =>
      df.colNames.map (fun j => pearson (df.col i) (df.col j))) }

/-- JSONDataAnalyzer.get_correlation_matrix: with more than one numeric
column, self.df[self.numeric_columns].corr(); otherwise an empty
DataFrame. -/
def get_correlation_matrix (df : DataFrame) : CorrMatrix :=
  if (numeric_columns df).length > 1 then (selectCols df (numeric_columns df)).corr
  else { index := [], columns := [], data := [] }

/-!
The visualizer (visualizer.JSONVisualizer): the histogram builder and its
column validation.
-/

inductive VizError where
  | columnNotFound (column : String)
deriving Repr, DecidableEq

/-- The declarative chart description px.histogram produces: the chart kind,
the bound column, the title, and the column data the figure carries. -/
structure Figure where
  kind : String
  x : String
  title : String
  data : List PCell
deriving Repr, DecidableEq

/-- JSONVisualizer: holds the DataFrame passed at construction. -/
structure JSONVisualizer where
  df : DataFrame
deriving Repr, DecidableEq

/-- JSONVisualizer.create_histogram: raises ValueError (ColumnNotFound) when
the column is absent from self.df.columns, otherwise builds the histogram
figure with the default title when none is given. The method body never
assigns to self, so the visualizer (and its table) comes back unchanged; the
returned pair carries the post-call visualizer state. -/
def create_histogram (self : JSONVisualizer) (column : String)
    (title : Option String) : Except VizError Figure × JSONVisualizer :=
  if column ∈ self.df.colNames then
    let t := title.getD ("Distribution of " ++ column)
    (.ok { kind := "histogram", x := column, title := t,
           data := self.df.col column }, self)
  else
    (.error (.columnNotFound column), self)

/-!
Concrete scenario inputs used by the counterexamples and witnesses.
-/

/-- An object whose single property is a non-empty array of scalars. -/
def scalarArrayPropInput : JsonValue := .obj [("a", .arr [.int 1, .int 2])]

/-- An array of two objects carrying one boolean column. -/
def boolColInput : JsonValue :=
  .arr [.obj [("a", .bool true)], .obj [("a", .bool false)]]

/-- An array of two objects carrying two numeric columns. -/
def twoNumColInput : JsonValue :=
  .arr [.obj [("a", .int 1), ("b", .int 2)], .obj [("a", .int 2), ("b", .int 4)]]

/-- A fallback node for reading an optional lookup result. -/
def defaultSNode : SNode := .node "" none none none

/-!
Supporting lemmas.
-/

theorem propNode_obj (kvs : List (String × JsonValue)) :
    propNode (.obj kvs) = get_json_structure (.obj kvs) := rfl

theorem topItems_head_obj (kvs : List (String × JsonValue))
    (t : List JsonValue) :
    topItems (.obj kvs :: t) = some (get_json_structure (.obj kvs)) := rfl

theorem propItems_head_obj (kvs : List (String × JsonValue))
    (t : List JsonValue) :
    propItems (.obj kvs :: t) = some (get_json_structure (.obj kvs)) := rfl

theorem mem_addKeys (c : String) (ks : List String) :
    ∀ acc, c ∈ addKeys acc ks ↔ c ∈ acc ∨ c ∈ ks := by
  induction ks with
  | nil => intro acc; simp [addKeys]
  | cons k ks ih =>
      intro acc
      have h1 : addKeys acc (k :: ks) =
          addKeys (if k ∈ acc then acc else acc ++ [k]) ks := rfl
      rw [h1, ih]
      by_cases h : k ∈ acc
      · rw [if_pos h]
        simp only [List.mem_cons]
        constructor
        · rintro (hA | hK)
          · exact Or.inl hA
          · exact Or.inr (Or.inr hK)
        · rintro (hA | hEq | hK)
          · exact Or.inl hA
          · exact Or.inl (hEq ▸ h)
          · exact Or.inr hK
      · rw [if_neg h]
        simp only [List.mem_append, List.mem_singleton, List.mem_cons]
        tauto

theorem mem_unionKeys_aux (c : String)
    (recs : List (List (String × JsonValue))) :
    ∀ acc, c ∈ recs.foldl (fun a r => addKeys a (r.map Prod.fst)) acc ↔
      c ∈ acc ∨ ∃ r ∈ recs, c ∈ r.map Prod.fst := by
  induction recs with
  | nil => intro acc; simp
  | cons r recs ih =>
      intro acc
      rw [List.foldl_cons, ih, mem_addKeys]
      simp only [List.mem_cons]
      constructor
      · rintro (⟨hA | hR⟩ | ⟨r2, hr2, hc2⟩)
        · exact Or.inl hA
        · exact Or.inr ⟨r, Or.inl rfl, hR⟩
        · exact Or.inr ⟨r2, Or.inr hr2, hc2⟩
      · rintro (hA | ⟨r2, hr2 | hr2, hc2⟩)
        · exact Or.inl (Or.inl hA)
        · exact Or.inl (Or.inr (hr2 ▸ hc2))
        · exact Or.inr ⟨r2, hr2, hc2⟩

theorem mem_unionKeys (c : String) (recs : List (List (String × JsonValue))) :
    c ∈ unionKeys recs ↔ ∃ r ∈ recs, c ∈ r.map Prod.fst := by
  have := mem_unionKeys_aux c recs []
  simpa [unionKeys] using this

theorem lookup_map_self {α : Type} (f : String → α) :
    ∀ (ks : List String) (c : String),
      (ks.map (fun k => (k, f k))).lookup c =
        if c ∈ ks then some (f c) else none := by
  intro ks
  induction ks with
  | nil => intro c; simp [List.lookup]
  | cons k ks ih =>
      intro c
      by_cases h : c = k
      · subst h; simp [List.lookup]
      · have hb : (c == k) = false := by simpa using h
        simp [List.lookup, hb, ih, h]

theorem recordsToDF_colNames (recs : List (List (String × JsonValue))) :
    (recordsToDF recs).colNames = unionKeys recs := by
  simp [recordsToDF, DataFrame.colNames, List.map_map, Function.comp_def]

theorem recordsToDF_col (recs : List (List (String × JsonValue))) (c : String)
    (h : c ∈ unionKeys recs) :
    (recordsToDF recs).col c = recs.map (fun r => cellAt r c) := by
  simp [recordsToDF, DataFrame.col, lookup_map_self, h]

theorem recordsToDF_nrows (recs : List (List (String × JsonValue))) :
    (recordsToDF recs).nrows = recs.length := rfl

theorem lookup_eq_none_of_not_mem :
    ∀ (r : List (String × JsonValue)) (c : String),
      c ∉ r.map Prod.fst → r.lookup c = none := by
  intro r
  induction r with
  | nil => intro c _; rfl
  | cons kv rest ih =>
      intro c h
      obtain ⟨k, v⟩ := kv
      rw [List.map_cons, List.mem_cons] at h
      push_neg at h
      have hne : (c == k) = false := by simpa using h.1
      simp only [List.lookup, hne]
      exact ih c h.2

theorem cellAt_not_mem (r : List (String × JsonValue)) (c : String)
    (h : c ∉ r.map Prod.fst) : cellAt r c = PCell.pnan := by
  unfold cellAt
  rw [lookup_eq_none_of_not_mem r c h]

theorem ntrList_scalar : ∀ kvs : List (String × JsonValue),
    (∀ kv ∈ kvs, kv.2.isObjB = false) → ntrList kvs = (kvs, []) := by
  intro kvs
  induction kvs with
  | nil => intro _; rfl
  | cons kv rest ih =>
      intro h
      obtain ⟨k, v⟩ := kv
      have hv : v.isObjB = false := h (k, v) (by simp)
      have hrest : ∀ kv ∈ rest, kv.2.isObjB = false :=
        fun kv hm => h kv (List.mem_cons_of_mem _ hm)
      cases v with
      | obj kvs2 => simp [JsonValue.isObjB] at hv
      | null => simp [ntrList, ih hrest]
      | bool b => simp [ntrList, ih hrest]
      | int n => simp [ntrList, ih hrest]
      | float q => simp [ntrList, ih hrest]
      | str s => simp [ntrList, ih hrest]
      | arr xs => simp [ntrList, ih hrest]

theorem nestedToRecord_scalar (kvs : List (String × JsonValue))
    (h : ∀ kv ∈ kvs, kv.2.isObjB = false) :
    nestedToRecord kvs = kvs := by
  simp [nestedToRecord, ntrList_scalar kvs h]

theorem addKeys_of_nodup : ∀ ks acc : List String, ks.Nodup →
    (∀ k ∈ ks, k ∉ acc) → addKeys acc ks = acc ++ ks := by
  intro ks
  induction ks with
  | nil => intro acc _ _; simp [addKeys]
  | cons k ks ih =>
      intro acc hnd hdisj
      have hk : k ∉ acc := hdisj k (by simp)
      have h1 : addKeys acc (k :: ks) = addKeys (acc ++ [k]) ks := by
        simp only [addKeys, List.foldl_cons, if_neg hk]
      rw [h1, ih (acc ++ [k]) hnd.of_cons ?disj]
      · simp
      case disj =>
        intro k2 hk2
        simp only [List.mem_append, List.mem_singleton]
        push_neg
        refine ⟨fun hc => hdisj k2 (List.mem_cons_of_mem _ hk2) hc, ?ne⟩
        intro hc
        exact (List.nodup_cons.mp hnd).1 (hc ▸ hk2)

theorem mem_numeric_columns (df : DataFrame) (c : String) :
    c ∈ numeric_columns df ↔
      c ∈ df.colNames ∧ inferDtype (df.col c) = DType.numeric := by
  simp [numeric_columns, List.mem_filter, beq_iff_eq]

theorem mem_categorical_columns (df : DataFrame) (c : String) :
    c ∈ categorical_columns df ↔
      c ∈ df.colNames ∧ inferDtype (df.col c) = DType.objectD ∧
        (sampleValues (df.col c)).all PCell.isHashable = true := by
  simp only [categorical_columns, List.mem_filter, beq_iff_eq]
  constructor
  · rintro ⟨⟨h1, h2⟩, h3⟩; exact ⟨h1, h2, h3⟩
  · rintro ⟨h1, h2, h3⟩; exact ⟨⟨h1, h2⟩, h3⟩

/-- Claim C2: flattening an array whose elements are all objects yields a
table whose column set is exactly the union of the flattened key paths of
all elements, and the cell a record contributes to a column whose key it
lacks is the null (NaN) marker. -/
theorem C2_union_columns_null_cells (xs : List JsonValue)
    (h : xs.all JsonValue.isObjB = true) :
    ∃ df : DataFrame, json_to_dataframe (.arr xs) = .ok df ∧
      (∀ c : String, c ∈ df.colNames ↔ ∃ r ∈ recsOf xs, c ∈ r.map Prod.fst) ∧
      (∀ c : String, c ∈ df.colNames →
        df.col c = (recsOf xs).map (fun r => cellAt r c)) ∧
      (∀ (r : List (String × JsonValue)) (c : String), c ∉ r.map Prod.fst →
        cellAt r c = PCell.pnan ∧ PCell.pnan.isNa = true) := by
  cases xs with
  | nil =>
      refine ⟨{ cols := [], nrows := 0 }, rfl, ?mem, ?col, ?cell⟩
      case mem => intro c; simp [DataFrame.colNames, recsOf]
      case col => intro c hc; simp [DataFrame.colNames] at hc
      case cell => intro r c hc; exact ⟨cellAt_not_mem r c hc, rfl⟩
  | cons hd t =>
      refine ⟨recordsToDF (recsOf (hd :: t)), ?ok, ?mem, ?col, ?cell⟩
      case ok => simp [json_to_dataframe, json_normalize, h]
      case mem =>
        intro c
        rw [recordsToDF_colNames, mem_unionKeys]
      case col =>
        intro c hc
        rw [recordsToDF_colNames] at hc
        exact recordsToDF_col _ c hc
      case cell => intro r c hc; exact ⟨cellAt_not_mem r c hc, rfl⟩

/-- Witness for C2 on a two-element non-uniform array. -/
theorem C2_witness :
    (([JsonValue.obj [("a", .int 1)],
       JsonValue.obj [("b", .null)]].all JsonValue.isObjB) = true) ∧
    (∃ df : DataFrame,
      json_to_dataframe
          (.arr [.obj [("a", .int 1)], .obj [("b", .null)]]) = .ok df ∧
      (∀ c : String, c ∈ df.colNames ↔
        ∃ r ∈ recsOf [.obj [("a", .int 1)], .obj [("b", .null)]],
          c ∈ r.map Prod.fst) ∧
      (∀ c : String, c ∈ df.colNames →
        df.col c = (recsOf [.obj [("a", .int 1)], .obj [("b", .null)]]).map
          (fun r => cellAt r c)) ∧
      (∀ (r : List (String × JsonValue)) (c : String), c ∉ r.map Prod.fst →
        cellAt r c = PCell.pnan ∧ PCell.pnan.isNa = true)) :=
  ⟨by decide, C2_union_columns_null_cells _ (by decide)⟩

/-- Claim C3: get_json_structure is total over every JsonValue (it is a
plain function into SNode, so every input yields a node), it assigns the
branch type label of each shape, and for an object input with distinct keys
its size field equals the number of keys. -/
theorem C3_describeStructure_total (v : JsonValue) :
    (∃ s : SNode, get_json_structure v = s) ∧
    (get_json_structure v).ty = topTypeName v ∧
    (∀ kvs : List (String × JsonValue), v = JsonValue.obj kvs →
      (kvs.map Prod.fst).Nodup →
      (get_json_structure v).size = some kvs.length) := by
  refine ⟨⟨get_json_structure v, rfl⟩, ?tyeq, ?sz⟩
  case tyeq => cases v <;> rfl
  case sz => rintro kvs rfl _; rfl

/-- Witness for C3 on a one-key object. -/
theorem C3_witness :
    (get_json_structure (.obj [("k", .int 1)])).ty =
        topTypeName (.obj [("k", .int 1)]) ∧
      (get_json_structure (.obj [("k", .int 1)])).size = some 1 :=
  ⟨(C3_describeStructure_total (.obj [("k", .int 1)])).2.1,
   (C3_describeStructure_total (.obj [("k", .int 1)])).2.2 _ rfl (by decide)⟩

/-- Claim C4 (amended): for a TOP-LEVEL array, size is the element count and
items is present iff the array is non-empty — the full structure of element
0 when it is an object, otherwise a leaf holding element 0's type name. For
an array that is an OBJECT PROPERTY, size is the element count but items is
present iff the array is non-empty AND element 0 is an object, in which case
it is element 0's structure. -/
theorem C4_array_structure :
    (∀ xs : List JsonValue,
      (get_json_structure (.arr xs)).size = some xs.length) ∧
    (∀ xs : List JsonValue,
      ((get_json_structure (.arr xs)).items = none ↔ xs = [])) ∧
    (∀ (kvs : List (String × JsonValue)) (t : List JsonValue),
      (get_json_structure (.arr (.obj kvs :: t))).items =
        some (get_json_structure (.obj kvs))) ∧
    (∀ (hd : JsonValue) (t : List JsonValue), hd.isObjB = false →
      (get_json_structure (.arr (hd :: t))).items =
        some (.node (typeName hd) none none none)) ∧
    (∀ kvs : List (String × JsonValue),
      (get_json_structure (.obj kvs)).properties = some (propList kvs)) ∧
    (∀ (k : String) (v : JsonValue) (rest : List (String × JsonValue)),
      propList ((k, v) :: rest) = (k, propNode v) :: propList rest) ∧
    (∀ xs : List JsonValue, (propNode (.arr xs)).size = some xs.length) ∧
    (∀ xs : List JsonValue,
      ((propNode (.arr xs)).items.isSome = true ↔
        ∃ (kvs : List (String × JsonValue)) (t : List JsonValue),
          xs = JsonValue.obj kvs :: t)) ∧
    (∀ (kvs : List (String × JsonValue)) (t : List JsonValue),
      (propNode (.arr (.obj kvs :: t))).items =
        some (get_json_structure (.obj kvs))) := by
  refine ⟨fun xs => rfl, ?iffTop, fun kvs t => rfl, ?notObj,
    fun kvs => rfl, fun k v rest => rfl, fun xs => rfl, ?iffProp,
    fun kvs t => rfl⟩
  case iffTop =>
    intro xs
    have hx : (get_json_structure (.arr xs)).items = topItems xs := rfl
    rw [hx]
    cases xs with
    | nil => simp [topItems]
    | cons hd t => cases hd <;> simp [topItems]
  case notObj =>
    intro hd t h
    have hx : (get_json_structure (.arr (hd :: t))).items =
        topItems (hd :: t) := rfl
    rw [hx]
    cases hd <;> first
      | rfl
      | simp [JsonValue.isObjB] at h
  case iffProp =>
    intro xs
    have hx : (propNode (.arr xs)).items = propItems xs := rfl
    rw [hx]
    cases xs with
    | nil => simp [propItems]
    | cons hd t => cases hd <;> simp [propItems]

/-- Witness for C4: a top-level array with a non-object head, and a
property-style array with an object head. -/
theorem C4_witness :
    (JsonValue.int 3).isObjB = false ∧
    (get_json_structure (.arr [.int 3])).items =
        some (.node "int" none none none) ∧
    (propNode (.arr [.obj [("z", .int 9)]])).items =
        some (get_json_structure (.obj [("z", .int 9)])) :=
  ⟨by decide,
   C4_array_structure.2.2.2.1 (.int 3) [] (by decide),
   C4_array_structure.2.2.2.2.2.2.2.2 [("z", .int 9)] []⟩

/-- Counterexample for C4 as stated: the object property "a" holds the
non-empty two-element array [1, 2], yet its structure node has NO items
entry, refuting "items is present iff the array is non-empty" for arrays
appearing as object properties. -/
theorem C4_counterexample :
    ((((get_json_structure scalarArrayPropInput).properties.getD []).lookup
        "a").getD defaultSNode).size = some 2 ∧
    ((((get_json_structure scalarArrayPropInput).properties.getD []).lookup
        "a").getD defaultSNode).items.isNone = true ∧
    (2 : Nat) ≠ 0 := by decide

/-- Claim C5 (amended): a column is classified Categorical iff it has object
storage dtype (so numeric-dtype AND bool-dtype columns are excluded) and its
first 5 non-null cells are all hashable scalars — later cells are never
examined; an object-dtype column whose sample fails appears in neither the
Numeric nor the Categorical list. -/
theorem C5_categorical_iff (df : DataFrame) (c : String) :
    (c ∈ categorical_columns df ↔
      c ∈ df.colNames ∧ inferDtype (df.col c) = DType.objectD ∧
        (sampleValues (df.col c)).all PCell.isHashable = true) ∧
    (inferDtype (df.col c) = DType.objectD →
      (sampleValues (df.col c)).all PCell.isHashable = false →
      c ∉ numeric_columns df ∧ c ∉ categorical_columns df) := by
  refine ⟨mem_categorical_columns df c, ?fail⟩
  intro hob hs
  constructor
  · intro hmem
    rw [mem_numeric_columns] at hmem
    rw [hmem.2] at hob
    exact DType.noConfusion hob
  · intro hmem
    rw [mem_categorical_columns] at hmem
    rw [hmem.2.2] at hs
    exact Bool.noConfusion hs

/-- Witness for C5: the list-valued column fails the hashability sample and
lands in neither class. -/
theorem C5_witness :
    inferDtype ((dfOf scalarArrayPropInput).col "a") = DType.objectD ∧
    (sampleValues ((dfOf scalarArrayPropInput).col "a")).all
        PCell.isHashable = false ∧
    ("a" ∉ numeric_columns (dfOf scalarArrayPropInput) ∧
      "a" ∉ categorical_columns (dfOf scalarArrayPropInput)) :=
  ⟨by decide, by decide,
   (C5_categorical_iff (dfOf scalarArrayPropInput) "a").2 (by decide)
     (by decide)⟩

/-- Counterexample for C5 as stated: a boolean column is not Numeric and its
first 5 non-null cells are all hashable scalars, yet it is NOT classified
Categorical, because pandas stores it at bool dtype and the classifier only
iterates over object-dtype columns. -/
theorem C5_counterexample :
    json_to_dataframe boolColInput = .ok (dfOf boolColInput) ∧
    "a" ∈ (dfOf boolColInput).colNames ∧
    "a" ∉ numeric_columns (dfOf boolColInput) ∧
    (sampleValues ((dfOf boolColInput).col "a")).all PCell.isHashable = true ∧
    "a" ∉ categorical_columns (dfOf boolColInput) := by decide

/-- Claim C6: flattening an object all of whose property values are scalars
(with distinct keys, as Python dicts guarantee) yields exactly one row whose
columns are exactly the property keys in insertion order. -/
theorem C6_scalar_object_single_row (kvs : List (String × JsonValue))
    (hsc : ∀ kv ∈ kvs, kv.2.isScalarB = true)
    (hnd : (kvs.map Prod.fst).Nodup) :
    ∃ df : DataFrame, json_to_dataframe (.obj kvs) = .ok df ∧
      df.nrows = 1 ∧ df.colNames = kvs.map Prod.fst ∧
      df.colNames.length = kvs.length := by
  have hno : ∀ kv ∈ kvs, kv.2.isObjB = false := by
    intro kv hm
    have := hsc kv hm
    cases h2 : kv.2 <;> simp_all [JsonValue.isScalarB, JsonValue.isObjB]
  have hrec : nestedToRecord kvs = kvs := nestedToRecord_scalar kvs hno
  have hnames : (recordsToDF [nestedToRecord kvs]).colNames =
      kvs.map Prod.fst := by
    rw [recordsToDF_colNames, hrec]
    show unionKeys [kvs] = kvs.map Prod.fst
    unfold unionKeys
    simp only [List.foldl_cons, List.foldl_nil]
    have := addKeys_of_nodup (kvs.map Prod.fst) [] hnd (by simp)
    simpa using this
  exact ⟨recordsToDF [nestedToRecord kvs], rfl, rfl, hnames,
    by rw [hnames, List.length_map]⟩

/-- Witness for C6 on a two-scalar-property object. -/
theorem C6_witness :
    (∀ kv ∈ [("a", JsonValue.int 1), ("b", JsonValue.str "x")],
      kv.2.isScalarB = true) ∧
    (([("a", JsonValue.int 1), ("b", JsonValue.str "x")].map
        Prod.fst).Nodup) ∧
    (∃ df : DataFrame,
      json_to_dataframe (.obj [("a", .int 1), ("b", .str "x")]) = .ok df ∧
      df.nrows = 1 ∧
      df.colNames =
        [("a", JsonValue.int 1), ("b", JsonValue.str "x")].map Prod.fst ∧
      df.colNames.length =
        [("a", JsonValue.int 1), ("b", JsonValue.str "x")].length) :=
  ⟨by decide, by decide,
   C6_scalar_object_single_row _ (by decide) (by decide)⟩

/-- Claim C7: for every top-level input that is a bare scalar (neither
object nor array), json_to_dataframe fails with the UnconvertibleStructure
error rather than returning a table. -/
theorem C7_scalar_unconvertible (v : JsonValue) (h : v.isScalarB = true) :
    json_to_dataframe v = .error .unconvertibleStructure := by
  cases v <;> first
    | rfl
    | simp [JsonValue.isScalarB] at h

/-- Witness for C7 at the concrete bare scalar 5. -/
theorem C7_witness :
    (JsonValue.int 5).isScalarB = true ∧
      json_to_dataframe (.int 5) = .error .unconvertibleStructure :=
  ⟨by decide, C7_scalar_unconvertible (.int 5) (by decide)⟩

/-- Claim C8: with fewer than 2 numeric columns the correlation matrix is
the empty result (not an error); with 2 or more, it is a square matrix whose
index and columns are exactly the numeric columns. -/
theorem C8_correlation_matrix (df : DataFrame) :
    ((numeric_columns df).length < 2 →
      get_correlation_matrix df = { index := [], columns := [], data := [] }) ∧
    (2 ≤ (numeric_columns df).length →
      (get_correlation_matrix df).index = numeric_columns df ∧
      (get_correlation_matrix df).columns = numeric_columns df ∧
      (get_correlation_matrix df).data.length =
        (numeric_columns df).length ∧
      ∀ row ∈ (get_correlation_matrix df).data,
        row.length = (numeric_columns df).length) := by
  constructor
  · intro hlt
    unfold get_correlation_matrix
    rw [if_neg (by omega)]
  · intro hge
    unfold get_correlation_matrix
    rw [if_pos (by omega)]
    have hnames : (selectCols df (numeric_columns df)).colNames =
        numeric_columns df := by
      simp [selectCols, DataFrame.colNames, List.map_map, Function.comp_def]
    refine ⟨?i, ?c, ?len, ?rows⟩
    case i => simp [DataFrame.corr, hnames]
    case c => simp [DataFrame.corr, hnames]
    case len => simp [DataFrame.corr, hnames]
    case rows =>
      intro row hrow
      simp only [DataFrame.corr, hnames, List.mem_map] at hrow
      obtain ⟨i, hi, rfl⟩ := hrow
      simp

/-- Witness for C8 on the two-numeric-column table. -/
theorem C8_witness :
    (2 ≤ (numeric_columns (dfOf twoNumColInput)).length) ∧
    ((get_correlation_matrix (dfOf twoNumColInput)).index =
        numeric_columns (dfOf twoNumColInput) ∧
      (get_correlation_matrix (dfOf twoNumColInput)).columns =
        numeric_columns (dfOf twoNumColInput) ∧
      (get_correlation_matrix (dfOf twoNumColInput)).data.length =
        (numeric_columns (dfOf twoNumColInput)).length ∧
      ∀ row ∈ (get_correlation_matrix (dfOf twoNumColInput)).data,
        row.length = (numeric_columns (dfOf twoNumColInput)).length) :=
  ⟨by decide, (C8_correlation_matrix (dfOf twoNumColInput)).2 (by decide)⟩

/-- Claim C9: requesting a histogram of a column absent from the table fails
with ColumnNotFound, and the visualizer (hence its table) is returned
unchanged. -/
theorem C9_histogram_missing_column (vis : JSONVisualizer) (column : String)
    (title : Option String) (h : column ∉ vis.df.colNames) :
    create_histogram vis column title =
      (.error (.columnNotFound column), vis) := by
  unfold create_histogram
  rw [if_neg h]

/-- Witness for C9 at a concrete missing column. -/
theorem C9_witness :
    ("zz" ∉ (JSONVisualizer.mk (dfOf twoNumColInput)).df.colNames) ∧
    create_histogram (JSONVisualizer.mk (dfOf twoNumColInput)) "zz" none =
      (.error (.columnNotFound "zz"), JSONVisualizer.mk (dfOf twoNumColInput)) :=
  ⟨by decide, C9_histogram_missing_column _ "zz" none (by decide)⟩

/-- Claim C10: the Numeric and Categorical column lists are disjoint — a
numeric-dtype column can never appear among the categorical candidates,
which are drawn only from object-dtype columns. -/
theorem C10_numeric_categorical_disjoint (df : DataFrame) (c : String)
    (h : c ∈ numeric_columns df) : c ∉ categorical_columns df := by
  intro hc
  rw [mem_numeric_columns] at h
  rw [mem_categorical_columns] at hc
  rw [h.2] at hc
  exact DType.noConfusion hc.2.1

/-- Witness for C10 on the two-numeric-column table. -/
theorem C10_witness :
    ("a" ∈ numeric_columns (dfOf twoNumColInput)) ∧
      "a" ∉ categorical_columns (dfOf twoNumColInput) :=
  ⟨by decide, C10_numeric_categorical_disjoint (dfOf twoNumColInput) "a"
    (by decide)⟩
